import Mathlib

/-!
Verification of the collision/placement engine of
`my-app/components/collision-detector.ts`.

Modelling conventions: JS numbers (doubles) are modelled as rationals `ℚ`;
JS `Map`/`Set` containers are modelled as association lists or bucket
functions with the same lookup/insert/delete semantics; the string cell
keys `"x,z"` are modelled by the integer pairs `ℤ × ℤ` they injectively
encode.  `THREE.Box3` / `THREE.Vec3` operations used by the source are
embedded from their three.js semantics.  `performance.now()` is passed
explicitly as a rational timestamp, and the host trigonometry
(`Math.PI`, `Math.cos`, `Math.sin`) is passed as an explicit oracle.
-/

structure Vec3 where
  x : ℚ
  y : ℚ
  z : ℚ
  deriving DecidableEq

structure Box3 where
  min : Vec3
  max : Vec3
  deriving DecidableEq

/-- three.js `Box3.intersectsBox`: closed-interval overlap on all three
axes, so boxes that merely touch count as intersecting. -/
def intersectsBox (a b : Box3) : Bool :=
  !(decide (b.max.x < a.min.x) || decide (b.min.x > a.max.x) ||
    decide (b.max.y < a.min.y) || decide (b.min.y > a.max.y) ||
    decide (b.max.z < a.min.z) || decide (b.min.z > a.max.z))

/-- three.js `Box3.containsPoint` (boundary inclusive). -/
def containsPoint (b : Box3) (p : Vec3) : Bool :=
  !(decide (p.x < b.min.x) || decide (p.x > b.max.x) ||
    decide (p.y < b.min.y) || decide (p.y > b.max.y) ||
    decide (p.z < b.min.z) || decide (p.z > b.max.z))

/-- three.js `Box3.expandByScalar`. -/
def expandByScalar (b : Box3) (s : ℚ) : Box3 :=
  ⟨⟨b.min.x - s, b.min.y - s, b.min.z - s⟩, ⟨b.max.x + s, b.max.y + s, b.max.z + s⟩⟩

/-- three.js `Vec3.clamp` against the corners of a box, as used by
`new THREE.Vec3().copy(center).clamp(bounds.min, bounds.max)`. -/
def clampPoint (b : Box3) (p : Vec3) : Vec3 :=
  ⟨max b.min.x (min b.max.x p.x),
   max b.min.y (min b.max.y p.y),
   max b.min.z (min b.max.z p.z)⟩

/-- Squared distance between two points.  `Vec3.distanceTo` is the square
root of this; the source only compares `distanceTo` with the threshold
`2.0`, which is embedded as comparing this square with `4` (both sides of
the source comparison are nonnegative, so the encodings agree). -/
def distanceToSq (p q : Vec3) : ℚ :=
  (p.x - q.x) ^ 2 + (p.y - q.y) ^ 2 + (p.z - q.z) ^ 2

/-- three.js `Box3.getCenter`. -/
def getCenter (b : Box3) : Vec3 :=
  ⟨(b.min.x + b.max.x) / 2, (b.min.y + b.max.y) / 2, (b.min.z + b.max.z) / 2⟩

/-- three.js `Box3.setFromCenterAndSize`. -/
def setFromCenterAndSize (c s : Vec3) : Box3 :=
  ⟨⟨c.x - s.x / 2, c.y - s.y / 2, c.z - s.z / 2⟩,
   ⟨c.x + s.x / 2, c.y + s.y / 2, c.z + s.z / 2⟩⟩

/-- JS `Map.get` on an association list. -/
def mlookup {α β : Type} [DecidableEq α] (k : α) : List (α × β) → Option β
  | [] => none
  | (k', v) :: rest => if k' = k then some v else mlookup k rest

/-- JS `Map.delete` on an association list. -/
def mdelete {α β : Type} [DecidableEq α] (k : α) (l : List (α × β)) : List (α × β) :=
  l.filter (fun p => !(decide (p.1 = k)))

/-- JS `Map.set` (insert or replace) on an association list; keeps keys
duplicate-free, so `List.length` models `Map.size`. -/
def mset {α β : Type} [DecidableEq α] (k : α) (v : β) (l : List (α × β)) : List (α × β) :=
  (k, v) :: mdelete k l

/-- JS `Set.add` on a duplicate-free list. -/
def setAdd (id : String) (l : List String) : List String :=
  if id ∈ l then l else l ++ [id]

/-- Integers from `a` to `b` inclusive (empty when `b < a`): the index
sequence of a JS `for (let i = a; i <= b; i++)` loop. -/
def intRange (a b : ℤ) : List ℤ :=
  (List.range (b + 1 - a).toNat).map (fun (i : ℕ) => a + (i : ℤ))

/-- State of the `SpatialHash` class: the cell buckets `grid` and the
reverse bookkeeping map `objectCells` (id → covered cells). -/
structure SpatialHash where
  cellSize : ℚ
  grid : ℤ × ℤ → List String
  objectCells : List (String × List (ℤ × ℤ))

namespace SpatialHash

/-- Freshly constructed `new SpatialHash(cellSize)`. -/
def empty (cellSize : ℚ) : SpatialHash := ⟨cellSize, fun _ => [], []⟩

/-- Method `getCellsForBox`: every cell covered by the box's (x,z)
projection, via `floor(coord / cellSize)` over the min and max corners. -/
def getCellsForBox (h : SpatialHash) (box : Box3) : List (ℤ × ℤ) :=
  (intRange ⌊box.min.x / h.cellSize⌋ ⌊box.max.x / h.cellSize⌋).bind fun cx =>
    (intRange ⌊box.min.z / h.cellSize⌋ ⌊box.max.z / h.cellSize⌋).map fun cz => (cx, cz)

/-- Method `remove(id)`: delete `id` from every bucket recorded for it in
`objectCells`, then drop the bookkeeping entry. -/
def remove (h : SpatialHash) (id : String) : SpatialHash :=
  match mlookup id h.objectCells with
  | none => h
  | some cells =>
    { h with
      grid := fun c =>
        if c ∈ cells then (h.grid c).filter (fun i => !(decide (i = id))) else h.grid c
      objectCells := mdelete id h.objectCells }

/-- Method `insert(id, box)`: remove any prior registration, record the
covered cells, and add `id` to each covered cell's bucket. -/
def insert (h : SpatialHash) (id : String) (box : Box3) : SpatialHash :=
  let h1 := h.remove id
  let cells := h.getCellsForBox box
  { h1 with
    grid := fun c => if c ∈ cells then setAdd id (h1.grid c) else h1.grid c
    objectCells := mset id cells h1.objectCells }

/-- Method `query(box, excludeId?)`: union of the buckets of the box's
covered cells, excluding `excludeId`. -/
def query (h : SpatialHash) (box : Box3) (excludeId : Option String) : List String :=
  (h.getCellsForBox box).foldr
    (fun c acc => (h.grid c).filter (fun i => !(decide (some i = excludeId))) ++ acc) []

end SpatialHash

/-- A `BufferGeometry` as the detector inspects it: the `position`
attribute (when present) and the element count of the index buffer
(`none` models a null `geometry.index`, i.e. a point cloud). -/
structure BufferGeometry where
  position : Option (List Vec3)
  indexCount : Option ℕ

/-- A background mesh as the engine sees it: its geometry, the world
bounds computed by `new THREE.Box3().setFromObject(mesh)`, and the
downward ray-cast oracle used by `sampleFloorHeight` — it yields the y of
the nearest intersection of the ray from above (x, z), or `none` when the
ray misses; the casting itself is performed by three.js. -/
structure Mesh where
  geometry : BufferGeometry
  bounds : Box3
  raycastDown : ℚ → ℚ → Option ℚ

/-- State of the `CollisionDetector` class.  `throttleMs = 16`,
`gridCellSize = 1.0` and the spatial-hash cell size `2` are the fixed
constants of the source. -/
structure CollisionDetector where
  backgroundMesh : Option Mesh
  furnitureObjects : List (String × Box3)
  nextPlacementOffset : ℚ
  cachedFloorHeight : Option ℚ
  floorHeightGrid : List ((ℤ × ℤ) × ℚ)
  backgroundBounds : Option Box3
  dirtyObjects : List String
  collisionCache : String → Option Bool
  lastCheckTime : ℚ
  spatialHash : SpatialHash

/-- A freshly constructed `CollisionDetector` (spatial hash cell size 2). -/
def CollisionDetector.init : CollisionDetector :=
  ⟨none, [], 0, none, [], none, [], fun _ => none, 0, SpatialHash.empty 2⟩

/-- Method `findLowestVertexY`: minimum vertex y of the position attribute;
`none` when the attribute is missing or empty (the `Infinity` sentinel
survives the loop). -/
def findLowestVertexY (geometry : BufferGeometry) : Option ℚ :=
  match geometry.position with
  | none => none
  | some [] => none
  | some (v :: rest) => some ((rest.map Vec3.y).foldl min v.y)

/-- Method `getGridKey` with the fixed `gridCellSize = 1.0`, so that
`floor(x / 1.0) = ⌊x⌋`. -/
def getGridKey (x z : ℚ) : ℤ × ℤ := (⌊x⌋, ⌊z⌋)

/-- Sample points visited by `buildFloorHeightGrid`: with
`gridCellSize = 1.0` the two loops visit exactly the integer points from
`floor(bounds.min) * 1.0` to `ceil(bounds.max) * 1.0` on x and z. -/
def gridSamplePoints (bounds : Box3) : List (ℚ × ℚ) :=
  (intRange ⌊bounds.min.x⌋ ⌈bounds.max.x⌉).bind fun x =>
    (intRange ⌊bounds.min.z⌋ ⌈bounds.max.z⌉).map fun z => ((x : ℚ), (z : ℚ))

/-- Method `buildFloorHeightGrid`: clear the grid, then record the
ray-cast floor height at every sample point whose ray hits. -/
def buildFloorHeightGrid (mesh : Mesh) (bounds : Box3) : List ((ℤ × ℤ) × ℚ) :=
  (gridSamplePoints bounds).foldl
    (fun g xz =>
      match mesh.raycastDown xz.1 xz.2 with
      | some y => mset (getGridKey xz.1 xz.2) y g
      | none => g) []

/-- Insertion into an ascending-sorted list. -/
def insertSorted (a : ℚ) : List ℚ → List ℚ
  | [] => [a]
  | b :: rest => if a ≤ b then a :: b :: rest else b :: insertSorted a rest

/-- Ascending sort, modelling `heights.sort((a, b) => a - b)`. -/
def sortAsc (l : List ℚ) : List ℚ := l.foldr insertSorted []

/-- Method `calculateDefaultFloorHeight`: the bounding-box fallback when
the grid is empty, otherwise the height at the 10th-percentile index
`⌊0.1 * n⌋` of the ascending heights.  That index is in range whenever
`n > 0`, so the access default is never used. -/
def calculateDefaultFloorHeight (d : CollisionDetector) : Option ℚ :=
  if d.floorHeightGrid.length = 0 then
    match d.backgroundBounds with
    | some bb => some bb.min.y
    | none => none
  else
    let heights := sortAsc (d.floorHeightGrid.map (fun p => p.2))
    some (heights.getD ⌊(heights.length : ℚ) * (1 / 10)⌋.toNat 0)

/-- Method `setBackgroundMesh`. -/
def setBackgroundMesh (d : CollisionDetector) (mesh : Mesh) : CollisionDetector :=
  let bounds := mesh.bounds
  let hasIndex : Bool :=
    match mesh.geometry.indexCount with
    | some n => decide (0 < n)
    | none => false
  let d1 : CollisionDetector :=
    { d with backgroundMesh := some mesh, backgroundBounds := some bounds }
  let d2 : CollisionDetector :=
    if hasIndex then
      let d' := { d1 with floorHeightGrid := buildFloorHeightGrid mesh bounds }
      { d' with cachedFloorHeight := calculateDefaultFloorHeight d' }
    else
      { d1 with cachedFloorHeight := findLowestVertexY mesh.geometry }
  if d2.cachedFloorHeight = none ∧ d2.backgroundBounds ≠ none then
    { d2 with cachedFloorHeight := some bounds.min.y }
  else d2

/-- Method `getFloorHeight`. -/
def getFloorHeight (d : CollisionDetector) : Option ℚ := d.cachedFloorHeight

/-- Method `markDirty(id)`: drop the cache entries of `id` and of every id
the spatial hash reports near `id`'s currently registered box. -/
def markDirty (d : CollisionDetector) (id : String) : CollisionDetector :=
  let d1 := { d with
    dirtyObjects := setAdd id d.dirtyObjects
    collisionCache := fun i => if i = id then none else d.collisionCache i }
  match mlookup id d1.furnitureObjects with
  | none => d1
  | some box =>
    let nearbyIds := d1.spatialHash.query box (some id)
    { d1 with collisionCache := fun i => if i ∈ nearbyIds then none else d1.collisionCache i }

/-- Method `registerFurniture(id, box)` (the source stores a clone of the
box; value semantics make the clone implicit). -/
def registerFurniture (d : CollisionDetector) (id : String) (box : Box3) : CollisionDetector :=
  let d1 := { d with
    furnitureObjects := mset id box d.furnitureObjects
    spatialHash := d.spatialHash.insert id box }
  markDirty d1 id

/-- Method `unregisterFurniture(id)`. -/
def unregisterFurniture (d : CollisionDetector) (id : String) : CollisionDetector :=
  { d with
    furnitureObjects := mdelete id d.furnitureObjects
    spatialHash := d.spatialHash.remove id
    collisionCache := fun i => if i = id then none else d.collisionCache i
    dirtyObjects := d.dirtyObjects.filter (fun i => !(decide (i = id))) }

/-- Method `checkFurnitureCollisionOptimized`: broad-phase spatial-hash
query, then the exact AABB test against every candidate's stored box.
`checkCollisionFull` inlines this identical loop as its furniture phase. -/
def checkFurnitureCollisionOptimized (d : CollisionDetector) (currentFurnitureId : String)
    (furnitureBox : Box3) : Bool :=
  (d.spatialHash.query furnitureBox (some currentFurnitureId)).any fun id =>
    match mlookup id d.furnitureObjects with
    | some box => intersectsBox furnitureBox box
    | none => false

/-- Method `checkCollision`: throttled exact check, returning the result
together with the updated detector state. -/
def checkCollision (d : CollisionDetector) (now : ℚ) (furnitureId : String)
    (furnitureBox : Box3) : Bool × CollisionDetector :=
  if decide (now - d.lastCheckTime < 16) && (d.collisionCache furnitureId).isSome then
    ((d.collisionCache furnitureId).getD false, d)
  else
    let d1 := { d with lastCheckTime := now }
    let result := checkFurnitureCollisionOptimized d1 furnitureId furnitureBox
    (result,
     { d1 with collisionCache := fun i => if i = furnitureId then some result else d1.collisionCache i })

/-- Method `checkCollisionFull`: the unthrottled furniture loop plus the
background-bounds phase with the 0.1 expansion tolerance and the 2.0
distance threshold. -/
def checkCollisionFull (d : CollisionDetector) (furnitureId : String)
    (furnitureBox : Box3) : Bool :=
  if checkFurnitureCollisionOptimized d furnitureId furnitureBox then true
  else
    match d.backgroundBounds with
    | none => false
    | some bb =>
      let center := getCenter furnitureBox
      let expandedBounds := expandByScalar bb (1 / 10)
      if !(containsPoint expandedBounds center) then
        if distanceToSq center (clampPoint bb center) > 4 then true else false
      else false

/-- Method `checkFurnitureOnlyCollision`: `true` means the candidate
position is free (the source returns `false` on a furniture overlap). -/
def checkFurnitureOnlyCollision (d : CollisionDetector) (position : Vec3)
    (furnitureSize : Vec3) : Bool :=
  let testBox := setFromCenterAndSize
    ⟨position.x, position.y + furnitureSize.y / 2, position.z⟩ furnitureSize
  !((d.spatialHash.query testBox none).any fun id =>
    match mlookup id d.furnitureObjects with
    | some box => intersectsBox testBox box
    | none => false)

/-- Host math library trigonometry (`Math.PI`, `Math.cos`, `Math.sin`) as
an oracle over the rational number model. -/
structure Trig where
  pi : ℚ
  cos : ℚ → ℚ
  sin : ℚ → ℚ

/-- Ring-candidate loop indices of `findValidPositionInside`: rings 1..3,
8 points per ring, in loop order. -/
def ringPairs : List (ℕ × ℕ) :=
  (List.range 3).bind fun r => (List.range 8).map fun i => (r + 1, i)

/-- Inner double loop of `findValidPositionInside`: try the candidates in
loop order while `iterations < 25`, threading the iteration counter `n`. -/
def ringSearch (d : CollisionDetector) (τ : Trig) (center : Vec3) (floorY : ℚ)
    (furnitureSize : Vec3) (step : ℚ) : List (ℕ × ℕ) → ℕ → Option Vec3 × ℕ
  | [], n => (none, n)
  | (ring, i) :: rest, n =>
    if n < 25 then
      let angle := ((i : ℚ) / 8) * τ.pi * 2
      let radius := (ring : ℚ) * step
      let testPos : Vec3 :=
        ⟨center.x + τ.cos angle * radius, floorY, center.z + τ.sin angle * radius⟩
      if checkFurnitureOnlyCollision d testPos furnitureSize then (some testPos, n + 1)
      else ringSearch d τ center floorY furnitureSize step rest (n + 1)
    else (none, n)

/-- Method `findValidPositionInside`, instrumented with the number of
`checkFurnitureOnlyCollision` tests performed: the first component is the
source's returned position, the second is ghost instrumentation. -/
def findValidPositionInside (d : CollisionDetector) (τ : Trig)
    (furnitureSize : Vec3) : Option Vec3 × ℕ :=
  match d.backgroundMesh with
  | none => (some ⟨0, 0, 0⟩, 0)
  | some mesh =>
    let backgroundBox := mesh.bounds
    let backgroundCenter := getCenter backgroundBox
    let floorY := backgroundBox.min.y
    let centerPos : Vec3 := ⟨backgroundCenter.x, floorY, backgroundCenter.z⟩
    if checkFurnitureOnlyCollision d centerPos furnitureSize then (some centerPos, 1)
    else
      let step := max furnitureSize.x furnitureSize.z + 1 / 2
      match ringSearch d τ backgroundCenter floorY furnitureSize step ringPairs 0 with
      | (some pos, n) => (some pos, n + 1)
      | (none, n) =>
        let offset := (d.furnitureObjects.length : ℚ) * step * (3 / 10)
        (some ⟨backgroundCenter.x + offset, floorY, backgroundCenter.z + offset⟩, n + 1)

/-- One mutation of the Collision Registry. -/
inductive RegistryOp where
  | reg (id : String) (box : Box3)
  | unreg (id : String)

/-- Apply one registry mutation. -/
def applyOp (d : CollisionDetector) : RegistryOp → CollisionDetector
  | .reg id box => registerFurniture d id box
  | .unreg id => unregisterFurniture d id

/-- Run a sequence of registry mutations from the freshly built engine. -/
def runOps (ops : List RegistryOp) : CollisionDetector :=
  ops.foldl applyOp CollisionDetector.init

/-- Well-formed mutation: a registered box has ordered corners on the x
and z axes (degenerate boxes are programmer error per the spec, §7). -/
def RegistryOp.wf : RegistryOp → Prop
  | .reg _ box => box.min.x ≤ box.max.x ∧ box.min.z ≤ box.max.z
  | .unreg _ => True

instance : DecidablePred RegistryOp.wf := fun op => by
  cases op with
  | reg id box => simp only [RegistryOp.wf]; infer_instance
  | unreg id => simp only [RegistryOp.wf]; infer_instance

theorem mem_intRange {a b x : ℤ} : x ∈ intRange a b ↔ a ≤ x ∧ x ≤ b := by
  rw [intRange, List.mem_map]
  constructor
  · rintro ⟨i, hi, rfl⟩
    rw [List.mem_range, Int.lt_toNat] at hi
    omega
  · rintro ⟨h1, h2⟩
    refine ⟨(x - a).toNat, ?_, ?_⟩
    · rw [List.mem_range, Int.lt_toNat, Int.toNat_of_nonneg (by omega)]
      omega
    · rw [Int.toNat_of_nonneg (by omega)]
      omega

theorem mem_getCellsForBox {h : SpatialHash} {box : Box3} {c : ℤ × ℤ} :
    c ∈ h.getCellsForBox box ↔
      (⌊box.min.x / h.cellSize⌋ ≤ c.1 ∧ c.1 ≤ ⌊box.max.x / h.cellSize⌋) ∧
      (⌊box.min.z / h.cellSize⌋ ≤ c.2 ∧ c.2 ≤ ⌊box.max.z / h.cellSize⌋) := by
  obtain ⟨cx, cz⟩ := c
  simp only [SpatialHash.getCellsForBox, List.mem_bind, List.mem_map, mem_intRange,
    Prod.mk.injEq]
  constructor
  · rintro ⟨x, hx, z, hz, rfl, rfl⟩
    exact ⟨hx, hz⟩
  · rintro ⟨hx, hz⟩
    exact ⟨cx, hx, cz, hz, rfl, rfl⟩

theorem mem_query_aux {g : ℤ × ℤ → List String} {excl : Option String} {id : String} :
    ∀ l : List (ℤ × ℤ),
      (id ∈ l.foldr
        (fun c acc => (g c).filter (fun i => !(decide (some i = excl))) ++ acc) []) ↔
      ((∃ c ∈ l, id ∈ g c) ∧ some id ≠ excl)
  | [] => by simp
  | c :: cs => by
    simp only [List.foldr_cons, List.mem_append, List.mem_filter, mem_query_aux cs,
      List.mem_cons, Bool.not_eq_true', decide_eq_false_iff_not]
    constructor
    · rintro (⟨hg, hne⟩ | ⟨⟨c', hc', hg'⟩, hne⟩)
      · exact ⟨⟨c, Or.inl rfl, hg⟩, hne⟩
      · exact ⟨⟨c', Or.inr hc', hg'⟩, hne⟩
    · rintro ⟨⟨c', hc' | hc', hg'⟩, hne⟩
      · exact Or.inl ⟨hc' ▸ hg', hne⟩
      · exact Or.inr ⟨⟨c', hc', hg'⟩, hne⟩

theorem mem_query {h : SpatialHash} {box : Box3} {excl : Option String} {id : String} :
    id ∈ h.query box excl ↔
      (∃ c ∈ h.getCellsForBox box, id ∈ h.grid c) ∧ some id ≠ excl :=
  mem_query_aux _

theorem mem_setAdd {id id' : String} {l : List String} :
    id' ∈ setAdd id l ↔ id' = id ∨ id' ∈ l := by
  unfold setAdd
  split
  · constructor
    · exact Or.inr
    · rintro (rfl | hmem)
      · assumption
      · assumption
  · simp only [List.mem_append, List.mem_singleton]
    tauto

theorem cellSize_remove (h : SpatialHash) (id : String) :
    (h.remove id).cellSize = h.cellSize := by
  unfold SpatialHash.remove
  cases mlookup id h.objectCells <;> rfl

theorem cellSize_insert (h : SpatialHash) (id : String) (box : Box3) :
    (h.insert id box).cellSize = h.cellSize :=
  cellSize_remove h id

theorem getCellsForBox_remove (h : SpatialHash) (id : String) (box : Box3) :
    (h.remove id).getCellsForBox box = h.getCellsForBox box := by
  unfold SpatialHash.getCellsForBox
  rw [cellSize_remove]

theorem getCellsForBox_insert (h : SpatialHash) (id : String) (b box : Box3) :
    (h.insert id b).getCellsForBox box = h.getCellsForBox box := by
  unfold SpatialHash.getCellsForBox
  rw [cellSize_insert]

theorem grid_insert (h : SpatialHash) (id : String) (box : Box3) (c : ℤ × ℤ) :
    (h.insert id box).grid c =
      if c ∈ h.getCellsForBox box then setAdd id ((h.remove id).grid c)
      else (h.remove id).grid c := by
  simp only [SpatialHash.insert]

theorem div_floor_mono {a b c : ℚ} (hc : 0 < c) (hab : a ≤ b) :
    ⌊a / c⌋ ≤ ⌊b / c⌋ :=
  Int.floor_le_floor (by gcongr)

theorem exists_shared_cell (h : SpatialHash) (hc : 0 < h.cellSize) (A B : Box3)
    (hAx : A.min.x ≤ A.max.x) (hAz : A.min.z ≤ A.max.z)
    (hBx : B.min.x ≤ B.max.x) (hBz : B.min.z ≤ B.max.z)
    (hx1 : A.min.x ≤ B.max.x) (hx2 : B.min.x ≤ A.max.x)
    (hz1 : A.min.z ≤ B.max.z) (hz2 : B.min.z ≤ A.max.z) :
    ∃ c, c ∈ h.getCellsForBox A ∧ c ∈ h.getCellsForBox B := by
  refine ⟨(max ⌊A.min.x / h.cellSize⌋ ⌊B.min.x / h.cellSize⌋,
           max ⌊A.min.z / h.cellSize⌋ ⌊B.min.z / h.cellSize⌋), ?_, ?_⟩ <;>
    rw [mem_getCellsForBox]
  · exact ⟨⟨le_max_left _ _,
      max_le (div_floor_mono hc hAx) (div_floor_mono hc hx2)⟩,
      le_max_left _ _,
      max_le (div_floor_mono hc hAz) (div_floor_mono hc hz2)⟩
  · exact ⟨⟨le_max_right _ _,
      max_le (div_floor_mono hc hx1) (div_floor_mono hc hBx)⟩,
      le_max_right _ _,
      max_le (div_floor_mono hc hz1) (div_floor_mono hc hBz)⟩

/-- C1: if two well-formed boxes have intersecting (x,z) projections, then
after `insert(b, B)` a `query(A, excludeId)` with `excludeId ≠ b` (in
particular with no exclusion) returns a candidate set containing `b`: the
covered-cell computation guarantees a shared cell, so `query` never
produces a false negative. -/
theorem spatialHash_query_no_false_negative
    (h : SpatialHash) (A B : Box3) (b : String) (excl : Option String)
    (hc : 0 < h.cellSize)
    (hAx : A.min.x ≤ A.max.x) (hAz : A.min.z ≤ A.max.z)
    (hBx : B.min.x ≤ B.max.x) (hBz : B.min.z ≤ B.max.z)
    (hx1 : A.min.x ≤ B.max.x) (hx2 : B.min.x ≤ A.max.x)
    (hz1 : A.min.z ≤ B.max.z) (hz2 : B.min.z ≤ A.max.z)
    (hexcl : excl ≠ some b) :
    b ∈ (h.insert b B).query A excl := by
  obtain ⟨c, hcA, hcB⟩ :=
    exists_shared_cell h hc A B hAx hAz hBx hBz hx1 hx2 hz1 hz2
  rw [mem_query]
  refine ⟨⟨c, ?_, ?_⟩, fun hne => hexcl hne.symm⟩
  · rw [getCellsForBox_insert]
    exact hcA
  · rw [grid_insert, if_pos hcB, mem_setAdd]
    exact Or.inl rfl

/-- Witness for C1 at a concrete pair of overlapping boxes. -/
theorem spatialHash_query_no_false_negative_witness :
    "b" ∈ ((SpatialHash.empty 2).insert "b"
      ⟨⟨1 / 2, 0, 1 / 2⟩, ⟨2, 1, 2⟩⟩).query ⟨⟨0, 0, 0⟩, ⟨1, 1, 1⟩⟩ none :=
  spatialHash_query_no_false_negative (SpatialHash.empty 2)
    ⟨⟨0, 0, 0⟩, ⟨1, 1, 1⟩⟩ ⟨⟨1 / 2, 0, 1 / 2⟩, ⟨2, 1, 2⟩⟩ "b" none
    (by norm_num [SpatialHash.empty]) (by norm_num) (by norm_num) (by norm_num)
    (by norm_num) (by norm_num) (by norm_num) (by norm_num) (by norm_num) (by decide)

theorem mlookup_mdelete {α β : Type} [DecidableEq α] (k k' : α) (l : List (α × β)) :
    mlookup k (mdelete k' l) = if k' = k then none else mlookup k l := by
  induction l with
  | nil => simp [mdelete, mlookup]
  | cons p rest ih =>
    obtain ⟨a, v⟩ := p
    by_cases h1 : a = k'
    · subst h1
      have hd : mdelete a ((a, v) :: rest) = mdelete a rest := by simp [mdelete]
      rw [hd, ih]
      by_cases h2 : a = k <;> simp [mlookup, h2]
    · have hd : mdelete k' ((a, v) :: rest) = (a, v) :: mdelete k' rest := by
        simp [mdelete, h1]
      rw [hd]
      by_cases h2 : a = k
      · subst h2
        have h3 : ¬ k' = a := fun h => h1 h.symm
        simp [mlookup, h3]
      · simp [mlookup, h2, ih]

theorem mlookup_mset {α β : Type} [DecidableEq α] (k k' : α) (v : β) (l : List (α × β)) :
    mlookup k (mset k' v l) = if k' = k then some v else mlookup k l := by
  by_cases h : k' = k <;> simp [mset, mlookup, h, mlookup_mdelete]

theorem mlookup_mset_self {α β : Type} [DecidableEq α] (k : α) (v : β) (l : List (α × β)) :
    mlookup k (mset k v l) = some v := by
  simp [mlookup_mset]

theorem remove_empty (s : ℚ) (id : String) :
    (SpatialHash.empty s).remove id = SpatialHash.empty s := rfl

theorem markDirty_spatialHash (d : CollisionDetector) (id : String) :
    (markDirty d id).spatialHash = d.spatialHash := by
  simp only [markDirty]
  split <;> rfl

theorem markDirty_furnitureObjects (d : CollisionDetector) (id : String) :
    (markDirty d id).furnitureObjects = d.furnitureObjects := by
  simp only [markDirty]
  split <;> rfl

theorem registerFurniture_spatialHash (d : CollisionDetector) (id : String) (box : Box3) :
    (registerFurniture d id box).spatialHash = d.spatialHash.insert id box := by
  simp only [registerFurniture]
  rw [markDirty_spatialHash]

theorem registerFurniture_furnitureObjects (d : CollisionDetector) (id : String) (box : Box3) :
    (registerFurniture d id box).furnitureObjects = mset id box d.furnitureObjects := by
  simp only [registerFurniture]
  rw [markDirty_furnitureObjects]

theorem mem_grid_insert_empty {s : ℚ} {id id' : String} {B : Box3} {c : ℤ × ℤ} :
    id' ∈ ((SpatialHash.empty s).insert id B).grid c ↔
      id' = id ∧ c ∈ (SpatialHash.empty s).getCellsForBox B := by
  rw [grid_insert, remove_empty]
  by_cases hc : c ∈ (SpatialHash.empty s).getCellsForBox B
  · rw [if_pos hc]
    show id' ∈ setAdd id [] ↔ _
    rw [mem_setAdd]
    simp [hc]
  · rw [if_neg hc]
    show id' ∈ ([] : List String) ↔ _
    simp [hc]

theorem intersectsBox_iff {A B : Box3} :
    intersectsBox A B = true ↔
      (A.min.x ≤ B.max.x ∧ B.min.x ≤ A.max.x ∧ A.min.y ≤ B.max.y ∧ B.min.y ≤ A.max.y ∧
       A.min.z ≤ B.max.z ∧ B.min.z ≤ A.max.z) := by
  simp only [intersectsBox, Bool.not_eq_true', Bool.or_eq_false_iff,
    decide_eq_false_iff_not, not_lt]
  tauto

/-- C2 counterexample: two boxes that merely touch (`A.max.x = B.min.x`)
are reported as COLLIDING by `checkCollision`, not as non-colliding as the
claim states: three.js `intersectsBox` uses closed comparisons. -/
theorem touching_boxes_report_collision_cex :
    (checkCollision (registerFurniture CollisionDetector.init "b" ⟨⟨1, 0, 0⟩, ⟨2, 1, 1⟩⟩)
      100 "a" ⟨⟨0, 0, 0⟩, ⟨1, 1, 1⟩⟩).1 = true := by with_unfolding_all decide

/-- C2 amended: with `B` the only registered furniture (under `idB`), the
exact test of `checkCollision` (and of `check_collision_full`'s furniture
phase) reports a collision iff the boxes overlap on all three axes with
CLOSED bounds — i.e. touching (zero-width overlap) counts as COLLIDING,
not as non-colliding. -/
theorem checkCollision_exact_closed_overlap
    (A B : Box3) (idA idB : String) (hne : idA ≠ idB)
    (hAx : A.min.x ≤ A.max.x) (hAz : A.min.z ≤ A.max.z)
    (hBx : B.min.x ≤ B.max.x) (hBz : B.min.z ≤ B.max.z) :
    checkFurnitureCollisionOptimized
      (registerFurniture CollisionDetector.init idB B) idA A = intersectsBox A B ∧
    (intersectsBox A B = true ↔
      (A.min.x ≤ B.max.x ∧ B.min.x ≤ A.max.x ∧ A.min.y ≤ B.max.y ∧ B.min.y ≤ A.max.y ∧
       A.min.z ≤ B.max.z ∧ B.min.z ≤ A.max.z)) := by
  have hsh : (registerFurniture CollisionDetector.init idB B).spatialHash =
      (SpatialHash.empty 2).insert idB B :=
    registerFurniture_spatialHash CollisionDetector.init idB B
  have hfo : (registerFurniture CollisionDetector.init idB B).furnitureObjects =
      [(idB, B)] :=
    registerFurniture_furnitureObjects CollisionDetector.init idB B
  refine ⟨?_, intersectsBox_iff⟩
  simp only [checkFurnitureCollisionOptimized]
  cases hi : intersectsBox A B with
  | true =>
    apply List.any_eq_true.mpr
    obtain ⟨o1, o2, _, _, o5, o6⟩ := intersectsBox_iff.mp hi
    refine ⟨idB, ?_, ?_⟩
    · rw [hsh]
      exact spatialHash_query_no_false_negative (SpatialHash.empty 2) A B idB (some idA)
        (by norm_num [SpatialHash.empty]) hAx hAz hBx hBz o1 o2 o5 o6
        (by simpa using hne)
    · rw [hfo]
      have hv : mlookup idB [(idB, B)] = some B := by simp [mlookup]
      rw [hv]
      exact hi
  | false =>
    apply List.any_eq_false.mpr
    intro id' hid'
    rw [hsh, mem_query] at hid'
    obtain ⟨⟨c, _, hg⟩, _⟩ := hid'
    rw [mem_grid_insert_empty] at hg
    obtain ⟨heq, -⟩ := hg
    rw [hfo, heq]
    have hv : mlookup idB [(idB, B)] = some B := by simp [mlookup]
    rw [hv]
    simp only [Bool.not_eq_true]
    exact hi

/-- Witness for the amended C2 at a concrete touching pair. -/
theorem checkCollision_exact_closed_overlap_witness :
    checkFurnitureCollisionOptimized
      (registerFurniture CollisionDetector.init "b" ⟨⟨1, 0, 0⟩, ⟨2, 1, 1⟩⟩) "a"
      ⟨⟨0, 0, 0⟩, ⟨1, 1, 1⟩⟩ =
      intersectsBox ⟨⟨0, 0, 0⟩, ⟨1, 1, 1⟩⟩ ⟨⟨1, 0, 0⟩, ⟨2, 1, 1⟩⟩ ∧
    (intersectsBox ⟨⟨0, 0, 0⟩, ⟨1, 1, 1⟩⟩ ⟨⟨1, 0, 0⟩, ⟨2, 1, 1⟩⟩ = true ↔
      ((0 : ℚ) ≤ 2 ∧ (1 : ℚ) ≤ 1 ∧ (0 : ℚ) ≤ 1 ∧ (0 : ℚ) ≤ 1 ∧
       (0 : ℚ) ≤ 1 ∧ (0 : ℚ) ≤ 1)) :=
  checkCollision_exact_closed_overlap ⟨⟨0, 0, 0⟩, ⟨1, 1, 1⟩⟩ ⟨⟨1, 0, 0⟩, ⟨2, 1, 1⟩⟩
    "a" "b" (by decide) (by norm_num) (by norm_num) (by norm_num) (by norm_num)

theorem mdelete_of_mlookup_none {α β : Type} [DecidableEq α] {k : α} {l : List (α × β)}
    (h : mlookup k l = none) : mdelete k l = l := by
  induction l with
  | nil => rfl
  | cons p rest ih =>
    obtain ⟨a, v⟩ := p
    by_cases hak : a = k
    · rw [mlookup, if_pos hak] at h
      exact absurd h (by simp)
    · rw [mlookup, if_neg hak] at h
      have : mdelete k ((a, v) :: rest) = (a, v) :: mdelete k rest := by
        simp [mdelete, hak]
      rw [this, ih h]

theorem objectCells_remove (h : SpatialHash) (id : String) :
    (h.remove id).objectCells = mdelete id h.objectCells := by
  unfold SpatialHash.remove
  cases hm : mlookup id h.objectCells with
  | none => exact (mdelete_of_mlookup_none hm).symm
  | some cells => rfl

theorem objectCells_insert (h : SpatialHash) (id : String) (box : Box3) :
    (h.insert id box).objectCells =
      mset id (h.getCellsForBox box) (h.remove id).objectCells := by
  simp only [SpatialHash.insert]

/-- Coherence of the two `SpatialHash` data structures: a bucket contains
an id exactly when the bookkeeping map records that bucket's cell for it. -/
def hashConsistent (h : SpatialHash) : Prop :=
  ∀ id c, id ∈ h.grid c ↔
    ∃ cells, mlookup id h.objectCells = some cells ∧ c ∈ cells

/-- Every recorded covered-cell set is nonempty. -/
def cellsNonempty (h : SpatialHash) : Prop :=
  ∀ id cells, mlookup id h.objectCells = some cells → cells ≠ []

/-- The Collision Registry and the spatial index know the same ids. -/
def registrySync (d : CollisionDetector) : Prop :=
  ∀ id, (mlookup id d.furnitureObjects).isSome ↔
    (mlookup id d.spatialHash.objectCells).isSome

/-- Engine invariant maintained by every registry mutation. -/
def EngineInv (d : CollisionDetector) : Prop :=
  0 < d.spatialHash.cellSize ∧ hashConsistent d.spatialHash ∧
    cellsNonempty d.spatialHash ∧ registrySync d

theorem mem_grid_remove {h : SpatialHash} (hC : hashConsistent h) (id id' : String)
    (c : ℤ × ℤ) : id' ∈ (h.remove id).grid c ↔ id' ∈ h.grid c ∧ id' ≠ id := by
  unfold SpatialHash.remove
  cases hm : mlookup id h.objectCells with
  | none =>
    show id' ∈ h.grid c ↔ _
    constructor
    · intro hmem
      refine ⟨hmem, ?_⟩
      rintro rfl
      obtain ⟨cells, hcells, -⟩ := (hC id' c).mp hmem
      rw [hm] at hcells
      exact Option.noConfusion hcells
    · exact fun hp => hp.1
  | some cells =>
    show id' ∈ (if c ∈ cells then (h.grid c).filter _ else h.grid c) ↔ _
    by_cases hc : c ∈ cells
    · rw [if_pos hc]
      simp only [List.mem_filter, Bool.not_eq_true', decide_eq_false_iff_not]
    · rw [if_neg hc]
      constructor
      · intro hmem
        refine ⟨hmem, ?_⟩
        rintro rfl
        obtain ⟨cells', hcells', hcc⟩ := (hC id' c).mp hmem
        rw [hm] at hcells'
        cases hcells'
        exact hc hcc
      · exact fun hp => hp.1

theorem hashConsistent_remove {h : SpatialHash} (hC : hashConsistent h) (id : String) :
    hashConsistent (h.remove id) := by
  intro id' c
  rw [mem_grid_remove hC id id' c, objectCells_remove, hC id' c, mlookup_mdelete]
  by_cases hii : id = id'
  · subst hii
    simp
  · simp [hii]
    tauto

theorem hashConsistent_insert {h : SpatialHash} (hC : hashConsistent h)
    (id : String) (box : Box3) : hashConsistent (h.insert id box) := by
  have hC1 := hashConsistent_remove hC id
  intro id' c
  rw [grid_insert, objectCells_insert, mlookup_mset]
  by_cases hii : id = id'
  · subst hii
    rw [if_pos rfl]
    by_cases hc : c ∈ h.getCellsForBox box
    · rw [if_pos hc, mem_setAdd]
      simp [hc]
    · rw [if_neg hc]
      constructor
      · intro hmem
        obtain ⟨cells', hcells', -⟩ := (hC1 id c).mp hmem
        rw [objectCells_remove, mlookup_mdelete, if_pos rfl] at hcells'
        exact Option.noConfusion hcells'
      · rintro ⟨cells, hcells, hcc⟩
        cases hcells
        exact absurd hcc hc
  · rw [if_neg hii]
    by_cases hc : c ∈ h.getCellsForBox box
    · rw [if_pos hc, mem_setAdd, hC1 id' c]
      constructor
      · rintro (rfl | hmem)
        · exact absurd rfl hii
        · exact hmem
      · exact Or.inr
    · rw [if_neg hc]
      exact hC1 id' c

theorem cellsNonempty_remove {h : SpatialHash} (hN : cellsNonempty h) (id : String) :
    cellsNonempty (h.remove id) := by
  intro id' cells hcells
  rw [objectCells_remove, mlookup_mdelete] at hcells
  by_cases hii : id = id'
  · rw [if_pos hii] at hcells
    exact Option.noConfusion hcells
  · rw [if_neg hii] at hcells
    exact hN id' cells hcells

theorem getCellsForBox_ne_nil (h : SpatialHash) (hc : 0 < h.cellSize) (box : Box3)
    (h1 : box.min.x ≤ box.max.x) (h2 : box.min.z ≤ box.max.z) :
    h.getCellsForBox box ≠ [] := by
  have hm : ((⌊box.min.x / h.cellSize⌋, ⌊box.min.z / h.cellSize⌋) : ℤ × ℤ) ∈
      h.getCellsForBox box := by
    rw [mem_getCellsForBox]
    exact ⟨⟨le_refl _, div_floor_mono hc h1⟩, ⟨le_refl _, div_floor_mono hc h2⟩⟩
  exact List.ne_nil_of_mem hm

theorem cellsNonempty_insert {h : SpatialHash} (hN : cellsNonempty h)
    (hc : 0 < h.cellSize) (id : String) (box : Box3)
    (h1 : box.min.x ≤ box.max.x) (h2 : box.min.z ≤ box.max.z) :
    cellsNonempty (h.insert id box) := by
  intro id' cells hcells
  rw [objectCells_insert, mlookup_mset] at hcells
  by_cases hii : id = id'
  · rw [if_pos hii] at hcells
    cases hcells
    exact getCellsForBox_ne_nil h hc box h1 h2
  · rw [if_neg hii, objectCells_remove, mlookup_mdelete, if_neg hii] at hcells
    exact hN id' cells hcells

theorem engineInv_init : EngineInv CollisionDetector.init := by
  refine ⟨by norm_num [CollisionDetector.init, SpatialHash.empty], ?_, ?_, ?_⟩
  · intro id c
    simp [CollisionDetector.init, SpatialHash.empty, mlookup]
  · intro id cells hcells
    simp [CollisionDetector.init, SpatialHash.empty, mlookup] at hcells
  · intro id
    simp [CollisionDetector.init, SpatialHash.empty, mlookup]

theorem engineInv_applyOp (d : CollisionDetector) (op : RegistryOp)
    (hI : EngineInv d) (hwf : op.wf) : EngineInv (applyOp d op) := by
  obtain ⟨hcs, hC, hN, hS⟩ := hI
  cases op with
  | reg id box =>
    obtain ⟨h1, h2⟩ := hwf
    have hsh := registerFurniture_spatialHash d id box
    have hfo := registerFurniture_furnitureObjects d id box
    refine ⟨?_, ?_, ?_, ?_⟩
    · show 0 < (registerFurniture d id box).spatialHash.cellSize
      rw [hsh, cellSize_insert]
      exact hcs
    · show hashConsistent (registerFurniture d id box).spatialHash
      rw [hsh]
      exact hashConsistent_insert hC id box
    · show cellsNonempty (registerFurniture d id box).spatialHash
      rw [hsh]
      exact cellsNonempty_insert hN hcs id box h1 h2
    · intro id'
      show (mlookup id' (registerFurniture d id box).furnitureObjects).isSome ↔
        (mlookup id' (registerFurniture d id box).spatialHash.objectCells).isSome
      rw [hfo, hsh, mlookup_mset, objectCells_insert, mlookup_mset, objectCells_remove,
        mlookup_mdelete]
      by_cases hii : id = id'
      · simp [hii]
      · simp only [if_neg hii]
        exact hS id'
  | unreg id =>
    have hsh : (unregisterFurniture d id).spatialHash = d.spatialHash.remove id := rfl
    have hfo : (unregisterFurniture d id).furnitureObjects =
        mdelete id d.furnitureObjects := rfl
    refine ⟨?_, ?_, ?_, ?_⟩
    · show 0 < (unregisterFurniture d id).spatialHash.cellSize
      rw [hsh, cellSize_remove]
      exact hcs
    · show hashConsistent (unregisterFurniture d id).spatialHash
      rw [hsh]
      exact hashConsistent_remove hC id
    · show cellsNonempty (unregisterFurniture d id).spatialHash
      rw [hsh]
      exact cellsNonempty_remove hN id
    · intro id'
      show (mlookup id' (unregisterFurniture d id).furnitureObjects).isSome ↔
        (mlookup id' (unregisterFurniture d id).spatialHash.objectCells).isSome
      rw [hfo, hsh, mlookup_mdelete, objectCells_remove, mlookup_mdelete]
      by_cases hii : id = id'
      · simp [hii]
      · simp only [if_neg hii]
        exact hS id'

theorem engineInv_foldl (ops : List RegistryOp) :
    ∀ d : CollisionDetector, EngineInv d → (∀ op ∈ ops, op.wf) →
      EngineInv (ops.foldl applyOp d) := by
  induction ops with
  | nil => exact fun d hI _ => hI
  | cons op rest ih =>
    intro d hI hwf
    exact ih (applyOp d op) (engineInv_applyOp d op hI (hwf op (by simp)))
      (fun o ho => hwf o (List.mem_cons_of_mem op ho))

/-- C3: after any sequence of well-formed `registerFurniture` /
`unregisterFurniture` calls starting from the empty engine, an id is
stored in the Collision Registry (`furnitureObjects`) iff it is recorded
in the Spatial Hash Index bookkeeping (`objectCells`) iff it is
discoverable in some grid bucket — registry and index stay strictly
synchronized after every mutation. -/
theorem registry_index_sync (ops : List RegistryOp) (hwf : ∀ op ∈ ops, op.wf) :
    ∀ id,
      ((mlookup id (runOps ops).furnitureObjects).isSome ↔
        (mlookup id (runOps ops).spatialHash.objectCells).isSome) ∧
      ((mlookup id (runOps ops).furnitureObjects).isSome ↔
        ∃ c, id ∈ (runOps ops).spatialHash.grid c) := by
  obtain ⟨hcs, hC, hN, hS⟩ := engineInv_foldl ops CollisionDetector.init engineInv_init hwf
  intro id
  refine ⟨hS id, (hS id).trans ?_⟩
  constructor
  · intro hsome
    obtain ⟨cells, hcells⟩ := Option.isSome_iff_exists.mp hsome
    obtain ⟨c, hc⟩ := List.exists_mem_of_ne_nil cells (hN id cells hcells)
    exact ⟨c, (hC id c).mpr ⟨cells, hcells, hc⟩⟩
  · rintro ⟨c, hc⟩
    obtain ⟨cells, hcells, -⟩ := (hC id c).mp hc
    rw [hcells]
    rfl

/-- Witness for C3 at a concrete mutation sequence. -/
theorem registry_index_sync_witness :
    ((mlookup "a" (runOps [RegistryOp.reg "a" ⟨⟨0, 0, 0⟩, ⟨1, 1, 1⟩⟩,
        RegistryOp.reg "b" ⟨⟨3, 0, 3⟩, ⟨4, 1, 4⟩⟩,
        RegistryOp.unreg "a"]).furnitureObjects).isSome ↔
      (mlookup "a" (runOps [RegistryOp.reg "a" ⟨⟨0, 0, 0⟩, ⟨1, 1, 1⟩⟩,
        RegistryOp.reg "b" ⟨⟨3, 0, 3⟩, ⟨4, 1, 4⟩⟩,
        RegistryOp.unreg "a"]).spatialHash.objectCells).isSome) ∧
    ((mlookup "a" (runOps [RegistryOp.reg "a" ⟨⟨0, 0, 0⟩, ⟨1, 1, 1⟩⟩,
        RegistryOp.reg "b" ⟨⟨3, 0, 3⟩, ⟨4, 1, 4⟩⟩,
        RegistryOp.unreg "a"]).furnitureObjects).isSome ↔
      ∃ c, "a" ∈ (runOps [RegistryOp.reg "a" ⟨⟨0, 0, 0⟩, ⟨1, 1, 1⟩⟩,
        RegistryOp.reg "b" ⟨⟨3, 0, 3⟩, ⟨4, 1, 4⟩⟩,
        RegistryOp.unreg "a"]).spatialHash.grid c) :=
  registry_index_sync [RegistryOp.reg "a" ⟨⟨0, 0, 0⟩, ⟨1, 1, 1⟩⟩,
    RegistryOp.reg "b" ⟨⟨3, 0, 3⟩, ⟨4, 1, 4⟩⟩, RegistryOp.unreg "a"]
    (by intro op hop
        fin_cases hop
        · exact ⟨by norm_num, by norm_num⟩
        · exact ⟨by norm_num, by norm_num⟩
        · trivial) "a"

theorem ringSearch_count_le (d : CollisionDetector) (τ : Trig) (center : Vec3)
    (floorY : ℚ) (furnitureSize : Vec3) (step : ℚ) :
    ∀ (pairs : List (ℕ × ℕ)) (n : ℕ),
      (ringSearch d τ center floorY furnitureSize step pairs n).2 ≤ n + pairs.length := by
  intro pairs
  induction pairs with
  | nil => intro n; simp [ringSearch]
  | cons p rest ih =>
    intro n
    obtain ⟨ring, i⟩ := p
    rw [ringSearch]
    by_cases hn : n < 25
    · rw [if_pos hn]
      by_cases ht : checkFurnitureOnlyCollision d
          ⟨center.x + τ.cos (((i : ℚ) / 8) * τ.pi * 2) * ((ring : ℚ) * step), floorY,
           center.z + τ.sin (((i : ℚ) / 8) * τ.pi * 2) * ((ring : ℚ) * step)⟩
          furnitureSize
      · rw [if_pos ht]
        simp only [List.length_cons]
        omega
      · rw [if_neg ht]
        have := ih (n + 1)
        simp only [List.length_cons]
        omega
    · rw [if_neg hn]
      simp only [List.length_cons]
      omega

theorem ringPairs_length : ringPairs.length = 24 := rfl

/-- C4: for every engine state (background set or not), trig oracle,
furniture size and furniture count, `findValidPositionInside` returns a
defined (non-null) position and performs at most 26 furniture-collision
tests (1 at the centroid plus the capped ring candidates). -/
theorem findValidPositionInside_total_bounded (d : CollisionDetector) (τ : Trig)
    (furnitureSize : Vec3) :
    (findValidPositionInside d τ furnitureSize).1.isSome = true ∧
      (findValidPositionInside d τ furnitureSize).2 ≤ 26 := by
  unfold findValidPositionInside
  cases hbm : d.backgroundMesh with
  | none => exact ⟨rfl, by norm_num⟩
  | some mesh =>
    simp only
    split
    · exact ⟨rfl, by norm_num⟩
    · rcases hr : ringSearch d τ (getCenter mesh.bounds) mesh.bounds.min.y furnitureSize
          (max furnitureSize.x furnitureSize.z + 1 / 2) ringPairs 0 with ⟨res, n⟩
      have hcount := ringSearch_count_le d τ (getCenter mesh.bounds) mesh.bounds.min.y
        furnitureSize (max furnitureSize.x furnitureSize.z + 1 / 2) ringPairs 0
      rw [hr, ringPairs_length] at hcount
      simp only at hcount
      cases res with
      | some pos => exact ⟨rfl, by show n + 1 ≤ 26; omega⟩
      | none => exact ⟨rfl, by show n + 1 ≤ 26; omega⟩

theorem foldl_min_mem (a : ℚ) (l : List ℚ) : l.foldl min a = a ∨ l.foldl min a ∈ l := by
  induction l generalizing a with
  | nil => exact Or.inl rfl
  | cons b rest ih =>
    rw [List.foldl_cons]
    rcases ih (min a b) with h | h
    · rw [h]
      rcases le_total a b with hab | hba
      · rw [min_eq_left hab]
        exact Or.inl rfl
      · rw [min_eq_right hba]
        exact Or.inr (List.mem_cons_self b rest)
    · exact Or.inr (List.mem_cons_of_mem b h)

theorem foldl_min_le (a : ℚ) (l : List ℚ) :
    l.foldl min a ≤ a ∧ ∀ b ∈ l, l.foldl min a ≤ b := by
  induction l generalizing a with
  | nil => exact ⟨le_refl a, by simp⟩
  | cons b rest ih =>
    obtain ⟨h1, h2⟩ := ih (min a b)
    refine ⟨h1.trans (min_le_left a b), ?_⟩
    intro c hc
    rcases List.mem_cons.mp hc with rfl | hc'
    · exact h1.trans (min_le_right a c)
    · exact h2 c hc'

theorem findLowestVertexY_spec (g : BufferGeometry) (vs : List Vec3)
    (hpos : g.position = some vs) (hne : vs ≠ []) :
    ∃ m, findLowestVertexY g = some m ∧ m ∈ vs.map Vec3.y ∧ ∀ v ∈ vs, m ≤ v.y := by
  unfold findLowestVertexY
  rw [hpos]
  cases vs with
  | nil => exact absurd rfl hne
  | cons v rest =>
    refine ⟨(rest.map Vec3.y).foldl min v.y, rfl, ?_, ?_⟩
    · rcases foldl_min_mem v.y (rest.map Vec3.y) with h | h
      · rw [h]
        exact List.mem_map_of_mem Vec3.y (List.mem_cons_self v rest)
      · rw [List.map_cons]
        exact List.mem_cons_of_mem _ h
    · intro v' hv'
      obtain ⟨h1, h2⟩ := foldl_min_le v.y (rest.map Vec3.y)
      rcases List.mem_cons.mp hv' with rfl | hv''
      · exact h1
      · exact h2 v'.y (List.mem_map_of_mem Vec3.y hv'')

theorem setBackgroundMesh_pointCloud (d : CollisionDetector) (mesh : Mesh)
    (hnf : mesh.geometry.indexCount = none) (m : ℚ)
    (hm : findLowestVertexY mesh.geometry = some m) :
    getFloorHeight (setBackgroundMesh d mesh) = some m := by
  simp [setBackgroundMesh, getFloorHeight, hnf, hm]

/-- C5: when a background surface without faces (no index buffer) is set,
the cached default floor height is exactly the minimum y-coordinate over
the vertices of the geometry's position attribute, for every bounding
box. -/
theorem pointCloud_floor_is_min_vertex_y (d : CollisionDetector) (mesh : Mesh)
    (vs : List Vec3) (hnf : mesh.geometry.indexCount = none)
    (hpos : mesh.geometry.position = some vs) (hne : vs ≠ []) :
    ∃ m, getFloorHeight (setBackgroundMesh d mesh) = some m ∧
      m ∈ vs.map Vec3.y ∧ ∀ v ∈ vs, m ≤ v.y := by
  obtain ⟨m, hm, hmem, hle⟩ := findLowestVertexY_spec mesh.geometry vs hpos hne
  exact ⟨m, setBackgroundMesh_pointCloud d mesh hnf m hm, hmem, hle⟩

/-- Witness for C5: the spec scenario — bounds `[0,0,0]×[10,3,10]`, point
cloud with vertex y-values 0.2, 0.5, 1.0 — yields floor height 0.2. -/
theorem pointCloud_floor_is_min_vertex_y_witness :
    (∃ m, getFloorHeight (setBackgroundMesh CollisionDetector.init
        ⟨⟨some [⟨0, 1 / 5, 0⟩, ⟨1, 1 / 2, 1⟩, ⟨2, 1, 2⟩], none⟩,
         ⟨⟨0, 0, 0⟩, ⟨10, 3, 10⟩⟩, fun _ _ => none⟩) = some m ∧
      m ∈ ([⟨0, 1 / 5, 0⟩, ⟨1, 1 / 2, 1⟩, ⟨2, 1, 2⟩] : List Vec3).map Vec3.y ∧
      ∀ v ∈ ([⟨0, 1 / 5, 0⟩, ⟨1, 1 / 2, 1⟩, ⟨2, 1, 2⟩] : List Vec3), m ≤ v.y) ∧
    getFloorHeight (setBackgroundMesh CollisionDetector.init
        ⟨⟨some [⟨0, 1 / 5, 0⟩, ⟨1, 1 / 2, 1⟩, ⟨2, 1, 2⟩], none⟩,
         ⟨⟨0, 0, 0⟩, ⟨10, 3, 10⟩⟩, fun _ _ => none⟩) = some (1 / 5) :=
  ⟨pointCloud_floor_is_min_vertex_y CollisionDetector.init
      ⟨⟨some [⟨0, 1 / 5, 0⟩, ⟨1, 1 / 2, 1⟩, ⟨2, 1, 2⟩], none⟩,
       ⟨⟨0, 0, 0⟩, ⟨10, 3, 10⟩⟩, fun _ _ => none⟩
      [⟨0, 1 / 5, 0⟩, ⟨1, 1 / 2, 1⟩, ⟨2, 1, 2⟩] rfl rfl (by simp),
   by with_unfolding_all decide⟩

/-- C6: with a background set and no furniture overlap reported by the
broad+exact furniture phase, `checkCollisionFull` returns `false` whenever
the box center lies inside the 0.1-expanded background bounds, and when
the center lies outside it returns `true` iff the center's distance to the
point clamped to the (unexpanded) bounds exceeds 2.0 (compared via squared
distance against 4). -/
theorem checkCollisionFull_bounds_soft_tolerance
    (d : CollisionDetector) (id : String) (box bb : Box3)
    (hbb : d.backgroundBounds = some bb)
    (hfurn : checkFurnitureCollisionOptimized d id box = false) :
    (containsPoint (expandByScalar bb (1 / 10)) (getCenter box) = true →
      checkCollisionFull d id box = false) ∧
    (containsPoint (expandByScalar bb (1 / 10)) (getCenter box) = false →
      (checkCollisionFull d id box = true ↔
        distanceToSq (getCenter box) (clampPoint bb (getCenter box)) > 4)) := by
  have hred : checkCollisionFull d id box =
      (if (!containsPoint (expandByScalar bb (1 / 10)) (getCenter box)) = true then
        (if distanceToSq (getCenter box) (clampPoint bb (getCenter box)) > 4 then true
         else false)
      else false) := by
    unfold checkCollisionFull
    rw [hfurn, hbb]
    rfl
  constructor
  · intro hin
    rw [hred, hin]
    simp
  · intro hout
    rw [hred, hout]
    by_cases hd : distanceToSq (getCenter box) (clampPoint bb (getCenter box)) > 4 <;>
      simp [hd]

/-- Witness for C6: the spec scenario — background `[0,0,0]×[10,3,10]`, a
unit box centered 5 units outside the expanded bounds collides, centered
1 unit outside does not. -/
theorem checkCollisionFull_bounds_soft_tolerance_witness :
    checkCollisionFull { CollisionDetector.init with
        backgroundBounds := some ⟨⟨0, 0, 0⟩, ⟨10, 3, 10⟩⟩ } "f"
      ⟨⟨73 / 5, 1, 9 / 2⟩, ⟨78 / 5, 2, 11 / 2⟩⟩ = true ∧
    checkCollisionFull { CollisionDetector.init with
        backgroundBounds := some ⟨⟨0, 0, 0⟩, ⟨10, 3, 10⟩⟩ } "f"
      ⟨⟨53 / 5, 1, 9 / 2⟩, ⟨58 / 5, 2, 11 / 2⟩⟩ = false := by
  have hmain := fun (box : Box3) => checkCollisionFull_bounds_soft_tolerance
    { CollisionDetector.init with backgroundBounds := some ⟨⟨0, 0, 0⟩, ⟨10, 3, 10⟩⟩ }
    "f" box ⟨⟨0, 0, 0⟩, ⟨10, 3, 10⟩⟩ rfl
  constructor
  · exact ((hmain ⟨⟨73 / 5, 1, 9 / 2⟩, ⟨78 / 5, 2, 11 / 2⟩⟩
      (by with_unfolding_all decide)).2
      (by with_unfolding_all decide)).mpr (by with_unfolding_all decide)
  · have h2 := (hmain ⟨⟨53 / 5, 1, 9 / 2⟩, ⟨58 / 5, 2, 11 / 2⟩⟩
      (by with_unfolding_all decide)).2
      (by with_unfolding_all decide)
    refine Bool.eq_false_iff.mpr (fun htrue => ?_)
    have hgt := h2.mp htrue
    revert hgt
    with_unfolding_all decide

theorem buildFloorHeightGrid_empty (mesh : Mesh) (bounds : Box3)
    (hmiss : ∀ x z, mesh.raycastDown x z = none) :
    buildFloorHeightGrid mesh bounds = [] := by
  unfold buildFloorHeightGrid
  have hgen : ∀ (pts : List (ℚ × ℚ)) (g : List ((ℤ × ℤ) × ℚ)),
      pts.foldl (fun g xz =>
        match mesh.raycastDown xz.1 xz.2 with
        | some y => mset (getGridKey xz.1 xz.2) y g
        | none => g) g = g := by
    intro pts
    induction pts with
    | nil => intro g; rfl
    | cons p rest ih =>
      intro g
      rw [List.foldl_cons, hmiss p.1 p.2]
      exact ih g
  exact hgen _ []

/-- C7 amended: when the surface has faces but the eager ray-cast grid
sampling yields zero hits, the default floor height falls back DIRECTLY to
the bounding box's minimum y — the vertex scan is never consulted (it runs
only in the no-faces branch). -/
theorem faces_zero_hits_floor_is_bbox_min (d : CollisionDetector) (mesh : Mesh) (n : ℕ)
    (hfaces : mesh.geometry.indexCount = some n) (hn : 0 < n)
    (hmiss : ∀ x z, mesh.raycastDown x z = none) :
    getFloorHeight (setBackgroundMesh d mesh) = some mesh.bounds.min.y := by
  have hgrid := buildFloorHeightGrid_empty mesh mesh.bounds hmiss
  simp [setBackgroundMesh, getFloorHeight, hfaces, hn, calculateDefaultFloorHeight, hgrid]

/-- C7 counterexample: a mesh with faces whose rays all miss, with vertex
y-minimum 0.2 and bounding-box minimum y 0: the cached floor height is 0
(the bounding-box fallback), NOT the vertex-scan minimum 0.2 the claim
prescribes. -/
theorem faces_zero_hits_ignores_vertex_scan_cex :
    getFloorHeight (setBackgroundMesh CollisionDetector.init
        ⟨⟨some [⟨0, 1 / 5, 0⟩, ⟨1, 1 / 2, 1⟩, ⟨2, 1, 2⟩], some 1⟩,
         ⟨⟨0, 0, 0⟩, ⟨10, 3, 10⟩⟩, fun _ _ => none⟩) = some 0 ∧
    findLowestVertexY (⟨some [⟨0, 1 / 5, 0⟩, ⟨1, 1 / 2, 1⟩, ⟨2, 1, 2⟩], some 1⟩ :
        BufferGeometry) = some (1 / 5) ∧
    (some (0 : ℚ) ≠ some (1 / 5 : ℚ)) := by
  refine ⟨?_, by with_unfolding_all decide, by with_unfolding_all decide⟩
  have := faces_zero_hits_floor_is_bbox_min CollisionDetector.init
    ⟨⟨some [⟨0, 1 / 5, 0⟩, ⟨1, 1 / 2, 1⟩, ⟨2, 1, 2⟩], some 1⟩,
     ⟨⟨0, 0, 0⟩, ⟨10, 3, 10⟩⟩, fun _ _ => none⟩ 1 rfl (by norm_num) (fun _ _ => rfl)
  simpa using this

/-- Witness for the amended C7 at the same concrete mesh. -/
theorem faces_zero_hits_floor_is_bbox_min_witness :
    getFloorHeight (setBackgroundMesh CollisionDetector.init
        ⟨⟨some [⟨0, 1 / 5, 0⟩, ⟨1, 1 / 2, 1⟩, ⟨2, 1, 2⟩], some 6⟩,
         ⟨⟨0, 0, 0⟩, ⟨4, 3, 4⟩⟩, fun _ _ => none⟩) =
      some ((⟨⟨some [⟨0, 1 / 5, 0⟩, ⟨1, 1 / 2, 1⟩, ⟨2, 1, 2⟩], some 6⟩,
         ⟨⟨0, 0, 0⟩, ⟨4, 3, 4⟩⟩, fun _ _ => none⟩ : Mesh)).bounds.min.y :=
  faces_zero_hits_floor_is_bbox_min CollisionDetector.init
    ⟨⟨some [⟨0, 1 / 5, 0⟩, ⟨1, 1 / 2, 1⟩, ⟨2, 1, 2⟩], some 6⟩,
     ⟨⟨0, 0, 0⟩, ⟨4, 3, 4⟩⟩, fun _ _ => none⟩ 6 rfl (by norm_num) (fun _ _ => rfl)

theorem checkCollision_hit (d : CollisionDetector) (now : ℚ) (id : String) (box : Box3)
    (hw : now - d.lastCheckTime < 16) (r : Bool) (hc : d.collisionCache id = some r) :
    checkCollision d now id box = (r, d) := by
  simp [checkCollision, hc, hw]

theorem checkFurnitureCollisionOptimized_lastCheckTime (d : CollisionDetector)
    (now : ℚ) (id : String) (box : Box3) :
    checkFurnitureCollisionOptimized { d with lastCheckTime := now } id box =
      checkFurnitureCollisionOptimized d id box := rfl

theorem checkCollision_miss (d : CollisionDetector) (now : ℚ) (id : String) (box : Box3)
    (h : (decide (now - d.lastCheckTime < 16) && (d.collisionCache id).isSome) = false) :
    checkCollision d now id box =
      (checkFurnitureCollisionOptimized d id box,
       { d with
         lastCheckTime := now
         collisionCache := fun i =>
           if i = id then some (checkFurnitureCollisionOptimized d id box)
           else d.collisionCache i }) := by
  simp only [checkCollision, h, Bool.false_eq_true, if_false]
  rfl

theorem registerFurniture_collisionCache_self (d : CollisionDetector) (id : String)
    (box : Box3) : (registerFurniture d id box).collisionCache id = none := by
  simp only [registerFurniture, markDirty]
  split
  · simp
  · rename_i box' heq
    simp only
    split
    · rfl
    · simp

theorem registerFurniture_lastCheckTime (d : CollisionDetector) (id : String)
    (box : Box3) : (registerFurniture d id box).lastCheckTime = d.lastCheckTime := by
  simp only [registerFurniture, markDirty]
  split <;> rfl

/-- C8: if the second of two `checkCollision` calls for the same id and
box falls inside the 16 ms throttle window (measured from the engine's
timestamp after the first call) and no mutation happened in between, it
returns the same boolean as the first call; and if `registerFurniture` is
called for that id between the two calls, the cache entry is invalidated,
so the second call recomputes the result against the current registry. -/
theorem checkCollision_throttle_correct (d : CollisionDetector) (id : String)
    (box box' : Box3) (t1 t2 : ℚ)
    (hwin : t2 - ((checkCollision d t1 id box).2).lastCheckTime < 16) :
    ((checkCollision ((checkCollision d t1 id box).2) t2 id box).1 =
      (checkCollision d t1 id box).1) ∧
    ((checkCollision (registerFurniture ((checkCollision d t1 id box).2) id box')
        t2 id box).1 =
      checkFurnitureCollisionOptimized
        (registerFurniture ((checkCollision d t1 id box).2) id box') id box) := by
  constructor
  · by_cases h1 : (decide (t1 - d.lastCheckTime < 16) && (d.collisionCache id).isSome) = true
    · obtain ⟨hw1, hs1⟩ := Bool.and_eq_true_iff.mp h1
      obtain ⟨r, hr⟩ := Option.isSome_iff_exists.mp hs1
      rw [checkCollision_hit d t1 id box (of_decide_eq_true hw1) r hr] at hwin ⊢
      rw [checkCollision_hit d t2 id box hwin r hr]
    · have h1' := Bool.not_eq_true _ |>.mp h1
      rw [checkCollision_miss d t1 id box h1'] at hwin ⊢
      rw [checkCollision_hit _ t2 id box hwin (checkFurnitureCollisionOptimized d id box)
        (by simp)]
  · set d1 := (checkCollision d t1 id box).2 with hd1
    have hcache : (registerFurniture d1 id box').collisionCache id = none :=
      registerFurniture_collisionCache_self d1 id box'
    have hmiss : (decide (t2 - (registerFurniture d1 id box').lastCheckTime < 16) &&
        ((registerFurniture d1 id box').collisionCache id).isSome) = false := by
      rw [hcache]
      simp
    rw [checkCollision_miss _ t2 id box hmiss]

/-- Witness for C8 at a concrete state and times. -/
theorem checkCollision_throttle_correct_witness :
    ((checkCollision ((checkCollision CollisionDetector.init 100 "a"
        ⟨⟨0, 0, 0⟩, ⟨1, 1, 1⟩⟩).2) 110 "a" ⟨⟨0, 0, 0⟩, ⟨1, 1, 1⟩⟩).1 =
      (checkCollision CollisionDetector.init 100 "a" ⟨⟨0, 0, 0⟩, ⟨1, 1, 1⟩⟩).1) ∧
    ((checkCollision (registerFurniture ((checkCollision CollisionDetector.init 100 "a"
        ⟨⟨0, 0, 0⟩, ⟨1, 1, 1⟩⟩).2) "a" ⟨⟨2, 0, 2⟩, ⟨3, 1, 3⟩⟩) 110 "a"
        ⟨⟨0, 0, 0⟩, ⟨1, 1, 1⟩⟩).1 =
      checkFurnitureCollisionOptimized
        (registerFurniture ((checkCollision CollisionDetector.init 100 "a"
          ⟨⟨0, 0, 0⟩, ⟨1, 1, 1⟩⟩).2) "a" ⟨⟨2, 0, 2⟩, ⟨3, 1, 3⟩⟩) "a"
        ⟨⟨0, 0, 0⟩, ⟨1, 1, 1⟩⟩) :=
  checkCollision_throttle_correct CollisionDetector.init "a" ⟨⟨0, 0, 0⟩, ⟨1, 1, 1⟩⟩
    ⟨⟨2, 0, 2⟩, ⟨3, 1, 3⟩⟩ 100 110 (by with_unfolding_all decide)

/-- C10: the throttle timestamp is global, not per-id — after a
`checkCollision` call for a DIFFERENT id `B` recomputes at time `t1`, a
`checkCollision(A, box)` call at any `t2` within 16 ms of `t1` returns
`A`'s cached boolean unchanged, entirely ignoring the box argument (two
different boxes give the same answer) and however old the entry is. -/
theorem throttle_global_ignores_box (d : CollisionDetector) (A B : String) (hAB : A ≠ B)
    (boxA boxA' boxB : Box3) (t1 t2 : ℚ) (r : Bool)
    (hold : 16 ≤ t1 - d.lastCheckTime)
    (hcache : d.collisionCache A = some r)
    (hwin : t2 - t1 < 16) :
    (checkCollision ((checkCollision d t1 B boxB).2) t2 A boxA).1 = r ∧
    (checkCollision ((checkCollision d t1 B boxB).2) t2 A boxA').1 = r := by
  have hmiss : (decide (t1 - d.lastCheckTime < 16) && (d.collisionCache B).isSome) = false := by
    simp [not_lt.mpr hold]
  rw [checkCollision_miss d t1 B boxB hmiss]
  have hcacheA : (fun i => if i = B then
      some (checkFurnitureCollisionOptimized d B boxB) else d.collisionCache i) A = some r := by
    simp [hAB, hcache]
  constructor
  · rw [checkCollision_hit _ t2 A boxA hwin r hcacheA]
  · rw [checkCollision_hit _ t2 A boxA' hwin r hcacheA]

/-- Witness for C10: id `"a"` has a stale cached `true` from long ago; a
call for `"b"` at t=1000 restarts the global window; calls for `"a"` at
t=1010 with two different boxes both return the stale `true`. -/
theorem throttle_global_ignores_box_witness :
    (checkCollision ((checkCollision { CollisionDetector.init with
        collisionCache := fun i => if i = "a" then some true else none } 1000 "b"
        ⟨⟨5, 0, 5⟩, ⟨6, 1, 6⟩⟩).2) 1010 "a" ⟨⟨0, 0, 0⟩, ⟨1, 1, 1⟩⟩).1 = true ∧
    (checkCollision ((checkCollision { CollisionDetector.init with
        collisionCache := fun i => if i = "a" then some true else none } 1000 "b"
        ⟨⟨5, 0, 5⟩, ⟨6, 1, 6⟩⟩).2) 1010 "a" ⟨⟨90, 0, 90⟩, ⟨91, 1, 91⟩⟩).1 = true :=
  throttle_global_ignores_box { CollisionDetector.init with
      collisionCache := fun i => if i = "a" then some true else none } "a" "b"
    (by decide) ⟨⟨0, 0, 0⟩, ⟨1, 1, 1⟩⟩ ⟨⟨90, 0, 90⟩, ⟨91, 1, 91⟩⟩ ⟨⟨5, 0, 5⟩, ⟨6, 1, 6⟩⟩
    1000 1010 true (by norm_num [CollisionDetector.init]) (by simp) (by norm_num)

theorem setBackgroundMesh_spatialHash (d : CollisionDetector) (mesh : Mesh) :
    (setBackgroundMesh d mesh).spatialHash = d.spatialHash := by
  simp only [setBackgroundMesh]
  split <;> split <;> rfl

theorem setBackgroundMesh_furnitureObjects (d : CollisionDetector) (mesh : Mesh) :
    (setBackgroundMesh d mesh).furnitureObjects = d.furnitureObjects := by
  simp only [setBackgroundMesh]
  split <;> split <;> rfl

theorem setBackgroundMesh_backgroundMesh (d : CollisionDetector) (mesh : Mesh) :
    (setBackgroundMesh d mesh).backgroundMesh = some mesh := by
  simp only [setBackgroundMesh]
  split <;> split <;> rfl

theorem markDirty_backgroundMesh (d : CollisionDetector) (id : String) :
    (markDirty d id).backgroundMesh = d.backgroundMesh := by
  simp only [markDirty]
  split <;> rfl

theorem registerFurniture_backgroundMesh (d : CollisionDetector) (id : String)
    (box : Box3) : (registerFurniture d id box).backgroundMesh = d.backgroundMesh := by
  simp only [registerFurniture]
  rw [markDirty_backgroundMesh]

/-- Scenario state for the ring-search claim: background bounds
`[-5,0,-5]×[5,3,5]` (horizontal centroid at the origin, a faceless point
cloud with no vertices), and one furniture box `[-5,0,-5]×[5,2,5]`
registered under `"f"` — the box spans the whole ring-search disc. -/
def fullSpanDetector : CollisionDetector :=
  registerFurniture (setBackgroundMesh CollisionDetector.init
    ⟨⟨none, none⟩, ⟨⟨-5, 0, -5⟩, ⟨5, 3, 5⟩⟩, fun _ _ => none⟩) "f"
    ⟨⟨-5, 0, -5⟩, ⟨5, 2, 5⟩⟩

theorem fullSpanDetector_backgroundMesh :
    fullSpanDetector.backgroundMesh =
      some ⟨⟨none, none⟩, ⟨⟨-5, 0, -5⟩, ⟨5, 3, 5⟩⟩, fun _ _ => none⟩ := by
  unfold fullSpanDetector
  rw [registerFurniture_backgroundMesh, setBackgroundMesh_backgroundMesh]

theorem fullSpanDetector_spatialHash :
    fullSpanDetector.spatialHash =
      (SpatialHash.empty 2).insert "f" ⟨⟨-5, 0, -5⟩, ⟨5, 2, 5⟩⟩ := by
  unfold fullSpanDetector
  rw [registerFurniture_spatialHash, setBackgroundMesh_spatialHash]
  rfl

theorem fullSpanDetector_furnitureObjects :
    fullSpanDetector.furnitureObjects = [("f", ⟨⟨-5, 0, -5⟩, ⟨5, 2, 5⟩⟩)] := by
  unfold fullSpanDetector
  rw [registerFurniture_furnitureObjects, setBackgroundMesh_furnitureObjects]
  rfl

theorem fullSpan_candidate_collides (p : Vec3) (hy : p.y = 0)
    (hx1 : -(9 / 2) ≤ p.x) (hx2 : p.x ≤ 9 / 2)
    (hz1 : -(9 / 2) ≤ p.z) (hz2 : p.z ≤ 9 / 2) :
    checkFurnitureOnlyCollision fullSpanDetector p ⟨1, 1, 1⟩ = false := by
  have hbox : setFromCenterAndSize ⟨p.x, p.y + (1 : ℚ) / 2, p.z⟩ ⟨1, 1, 1⟩ =
      ⟨⟨p.x - 1 / 2, 0, p.z - 1 / 2⟩, ⟨p.x + 1 / 2, 1, p.z + 1 / 2⟩⟩ := by
    simp [setFromCenterAndSize, hy]
    norm_num
  simp only [checkFurnitureOnlyCollision]
  rw [show ((⟨1, 1, 1⟩ : Vec3).y : ℚ) / 2 = 1 / 2 from by norm_num, hbox,
    Bool.not_eq_false']
  apply List.any_eq_true.mpr
  have htwo : (0 : ℚ) < ((SpatialHash.empty 2).cellSize) := by
    norm_num [SpatialHash.empty]
  refine ⟨"f", ?_, ?_⟩
  · rw [fullSpanDetector_spatialHash, mem_query]
    refine ⟨⟨(⌊(p.x - 1 / 2) / 2⌋, ⌊(p.z - 1 / 2) / 2⌋), ?_, ?_⟩, by simp⟩
    · rw [getCellsForBox_insert, mem_getCellsForBox]
      show (⌊(p.x - 1 / 2) / (2 : ℚ)⌋ ≤ _ ∧ _ ≤ ⌊(p.x + 1 / 2) / (2 : ℚ)⌋) ∧
        (⌊(p.z - 1 / 2) / (2 : ℚ)⌋ ≤ _ ∧ _ ≤ ⌊(p.z + 1 / 2) / (2 : ℚ)⌋)
      exact ⟨⟨le_refl _, div_floor_mono htwo (by linarith)⟩,
             ⟨le_refl _, div_floor_mono htwo (by linarith)⟩⟩
    · rw [mem_grid_insert_empty]
      refine ⟨rfl, ?_⟩
      rw [mem_getCellsForBox]
      show (⌊(-5 : ℚ) / 2⌋ ≤ _ ∧ _ ≤ ⌊(5 : ℚ) / 2⌋) ∧
        (⌊(-5 : ℚ) / 2⌋ ≤ _ ∧ _ ≤ ⌊(5 : ℚ) / 2⌋)
      rw [show ⌊(-5 : ℚ) / 2⌋ = -3 from by norm_num,
        show ⌊(5 : ℚ) / 2⌋ = 2 from by norm_num]
      refine ⟨⟨?_, ?_⟩, ?_, ?_⟩
      · exact Int.le_floor.mpr (by push_cast; linarith)
      · exact le_trans (Int.floor_le_floor (by linarith : (p.x - 1 / 2) / 2 ≤ 2))
          (by norm_num)
      · exact Int.le_floor.mpr (by push_cast; linarith)
      · exact le_trans (Int.floor_le_floor (by linarith : (p.z - 1 / 2) / 2 ≤ 2))
          (by norm_num)
  · rw [fullSpanDetector_furnitureObjects]
    rw [show mlookup "f" [("f", (⟨⟨-5, 0, -5⟩, ⟨5, 2, 5⟩⟩ : Box3))] =
      some ⟨⟨-5, 0, -5⟩, ⟨5, 2, 5⟩⟩ from by simp [mlookup]]
    apply intersectsBox_iff.mpr
    refine ⟨by show p.x - 1 / 2 ≤ 5; linarith, by show (-5 : ℚ) ≤ p.x + 1 / 2; linarith,
      by norm_num, by norm_num,
      by show p.z - 1 / 2 ≤ 5; linarith, by show (-5 : ℚ) ≤ p.z + 1 / 2; linarith⟩

theorem ringSearch_none (d : CollisionDetector) (τ : Trig) (center : Vec3)
    (floorY : ℚ) (furnitureSize : Vec3) (step : ℚ) :
    ∀ (pairs : List (ℕ × ℕ)) (n : ℕ),
      (∀ ring i, (ring, i) ∈ pairs →
        checkFurnitureOnlyCollision d
          ⟨center.x + τ.cos (((i : ℚ) / 8) * τ.pi * 2) * ((ring : ℚ) * step), floorY,
           center.z + τ.sin (((i : ℚ) / 8) * τ.pi * 2) * ((ring : ℚ) * step)⟩
          furnitureSize = false) →
      (ringSearch d τ center floorY furnitureSize step pairs n).1 = none := by
  intro pairs
  induction pairs with
  | nil => intro n _; rfl
  | cons p rest ih =>
    intro n hall
    obtain ⟨ring, i⟩ := p
    rw [ringSearch]
    by_cases hn : n < 25
    · rw [if_pos hn]
      simp only []
      rw [hall ring i (List.mem_cons_self _ _)]
      simp only [Bool.false_eq_true, if_false]
      exact ih (n + 1) (fun r j hm => hall r j (List.mem_cons_of_mem _ hm))
    · rw [if_neg hn]

theorem findValidPositionInside_eq (d : CollisionDetector) (τ : Trig)
    (furnitureSize : Vec3) (mesh : Mesh) (hbm : d.backgroundMesh = some mesh) :
    findValidPositionInside d τ furnitureSize =
      (if checkFurnitureOnlyCollision d
          ⟨(getCenter mesh.bounds).x, mesh.bounds.min.y, (getCenter mesh.bounds).z⟩
          furnitureSize then
        (some ⟨(getCenter mesh.bounds).x, mesh.bounds.min.y, (getCenter mesh.bounds).z⟩, 1)
      else
        match ringSearch d τ (getCenter mesh.bounds) mesh.bounds.min.y furnitureSize
            (max furnitureSize.x furnitureSize.z + 1 / 2) ringPairs 0 with
        | (some pos, n) => (some pos, n + 1)
        | (none, n) =>
          (some ⟨(getCenter mesh.bounds).x +
              (d.furnitureObjects.length : ℚ) *
                (max furnitureSize.x furnitureSize.z + 1 / 2) * (3 / 10),
            mesh.bounds.min.y,
            (getCenter mesh.bounds).z +
              (d.furnitureObjects.length : ℚ) *
                (max furnitureSize.x furnitureSize.z + 1 / 2) * (3 / 10)⟩, n + 1)) := by
  unfold findValidPositionInside
  rw [hbm]

theorem ringPairs_ring_bounds {ring i : ℕ} (h : (ring, i) ∈ ringPairs) :
    1 ≤ ring ∧ ring ≤ 3 := by
  simp only [ringPairs, List.mem_bind, List.mem_map, List.mem_range, Prod.mk.injEq] at h
  obtain ⟨r, hr, j, hj, hri, hji⟩ := h
  omega

/-- C9 counterexample: with the background's centroid coinciding with a
registered box spanning `[-5,0,-5]×[5,2,5]` and size `[1,1,1]`, the
centroid candidate is indeed rejected, but the ring search does NOT return
a non-overlapping candidate on ring 1 or 2: every ring candidate overlaps
the registered box (its half-width 5 exceeds the outermost candidate
extent), so the function returns the fallback centroid-offset position
`(0.45, 0, 0.45)` — which itself still overlaps the registered box.
Evaluated here at a concrete trig oracle. -/
theorem ring_search_fullspan_cex :
    (findValidPositionInside fullSpanDetector
        ⟨157 / 50, fun _ => 3 / 5, fun _ => 4 / 5⟩ ⟨1, 1, 1⟩).1 =
      some ⟨9 / 20, 0, 9 / 20⟩ ∧
    checkFurnitureOnlyCollision fullSpanDetector ⟨0, 0, 0⟩ ⟨1, 1, 1⟩ = false ∧
    checkFurnitureOnlyCollision fullSpanDetector ⟨9 / 20, 0, 9 / 20⟩ ⟨1, 1, 1⟩ = false := by
  with_unfolding_all decide

/-- C9 amended: for every trig oracle whose cosine and sine are bounded by
1 in absolute value (as the host `Math.cos`/`Math.sin` are), the centroid
candidate is rejected, every ring candidate of rings 1–3 collides with the
registered full-span box, and `findValidPositionInside` returns the
fallback position `centroid + furnitureCount·step·0.3 = (0.45, 0, 0.45)`,
which still overlaps the registered box. -/
theorem ring_search_fullspan_returns_fallback (τ : Trig)
    (hcos : ∀ a, |τ.cos a| ≤ 1) (hsin : ∀ a, |τ.sin a| ≤ 1) :
    (findValidPositionInside fullSpanDetector τ ⟨1, 1, 1⟩).1 =
      some ⟨9 / 20, 0, 9 / 20⟩ ∧
    checkFurnitureOnlyCollision fullSpanDetector ⟨0, 0, 0⟩ ⟨1, 1, 1⟩ = false ∧
    checkFurnitureOnlyCollision fullSpanDetector ⟨9 / 20, 0, 9 / 20⟩ ⟨1, 1, 1⟩ = false := by
  have hcenter : checkFurnitureOnlyCollision fullSpanDetector ⟨0, 0, 0⟩ ⟨1, 1, 1⟩ = false :=
    fullSpan_candidate_collides ⟨0, 0, 0⟩ rfl (by norm_num) (by norm_num) (by norm_num)
      (by norm_num)
  have hfall : checkFurnitureOnlyCollision fullSpanDetector ⟨9 / 20, 0, 9 / 20⟩
      ⟨1, 1, 1⟩ = false :=
    fullSpan_candidate_collides ⟨9 / 20, 0, 9 / 20⟩ rfl (by norm_num) (by norm_num)
      (by norm_num) (by norm_num)
  refine ⟨?_, hcenter, hfall⟩
  rw [findValidPositionInside_eq fullSpanDetector τ ⟨1, 1, 1⟩
    ⟨⟨none, none⟩, ⟨⟨-5, 0, -5⟩, ⟨5, 3, 5⟩⟩, fun _ _ => none⟩ fullSpanDetector_backgroundMesh]
  have hget : getCenter ⟨⟨-5, 0, -5⟩, ⟨5, 3, 5⟩⟩ = (⟨0, 3 / 2, 0⟩ : Vec3) := by
    simp [getCenter]
  simp only [hget]
  have hstep : max ((⟨1, 1, 1⟩ : Vec3)).x ((⟨1, 1, 1⟩ : Vec3)).z + (1 : ℚ) / 2 = 3 / 2 := by
    norm_num
  simp only [hstep]
  have hcen : (⟨((⟨0, 3 / 2, 0⟩ : Vec3)).x,
      ((⟨⟨-5, 0, -5⟩, ⟨5, 3, 5⟩⟩ : Box3)).min.y, ((⟨0, 3 / 2, 0⟩ : Vec3)).z⟩ : Vec3) =
      ⟨0, 0, 0⟩ := rfl
  rw [hcen, hcenter]
  simp only [Bool.false_eq_true, if_false]
  have hnone : (ringSearch fullSpanDetector τ ⟨0, 3 / 2, 0⟩
      ((⟨⟨-5, 0, -5⟩, ⟨5, 3, 5⟩⟩ : Box3)).min.y ⟨1, 1, 1⟩ (3 / 2) ringPairs 0).1 = none := by
    apply ringSearch_none
    intro ring i hmem
    obtain ⟨hr1, hr3⟩ := ringPairs_ring_bounds hmem
    have hr0 : (0 : ℚ) ≤ (ring : ℚ) * (3 / 2) := by positivity
    have hrc : ((ring : ℚ)) ≤ 3 := by exact_mod_cast hr3
    have hrm : (ring : ℚ) * (3 / 2) ≤ 9 / 2 := by linarith
    have hxabs := abs_le.mp (hcos (((i : ℚ) / 8) * τ.pi * 2))
    have hzabs := abs_le.mp (hsin (((i : ℚ) / 8) * τ.pi * 2))
    apply fullSpan_candidate_collides
    · rfl
    · show -(9 / 2) ≤ ((⟨0, 3 / 2, 0⟩ : Vec3)).x + _
      have := mul_le_mul_of_nonneg_right hxabs.1 hr0
      simp only
      nlinarith [mul_le_mul_of_nonneg_right hxabs.2 hr0,
        mul_le_mul_of_nonneg_right hxabs.1 hr0]
    · show ((⟨0, 3 / 2, 0⟩ : Vec3)).x + _ ≤ 9 / 2
      simp only
      nlinarith [mul_le_mul_of_nonneg_right hxabs.2 hr0,
        mul_le_mul_of_nonneg_right hxabs.1 hr0]
    · show -(9 / 2) ≤ ((⟨0, 3 / 2, 0⟩ : Vec3)).z + _
      simp only
      nlinarith [mul_le_mul_of_nonneg_right hzabs.2 hr0,
        mul_le_mul_of_nonneg_right hzabs.1 hr0]
    · show ((⟨0, 3 / 2, 0⟩ : Vec3)).z + _ ≤ 9 / 2
      simp only
      nlinarith [mul_le_mul_of_nonneg_right hzabs.2 hr0,
        mul_le_mul_of_nonneg_right hzabs.1 hr0]
  rcases hrs : ringSearch fullSpanDetector τ ⟨0, 3 / 2, 0⟩
      ((⟨⟨-5, 0, -5⟩, ⟨5, 3, 5⟩⟩ : Box3)).min.y ⟨1, 1, 1⟩ (3 / 2) ringPairs 0 with ⟨res, n⟩
  rw [hrs] at hnone
  simp only at hnone
  subst hnone
  simp only [fullSpanDetector_furnitureObjects]
  norm_num [Vec3.mk.injEq]

/-- Witness for the amended C9 at a concrete bounded trig oracle. -/
theorem ring_search_fullspan_returns_fallback_witness :
    (findValidPositionInside fullSpanDetector
        ⟨355 / 113, fun _ => -(3 / 5), fun _ => 4 / 5⟩ ⟨1, 1, 1⟩).1 =
      some ⟨9 / 20, 0, 9 / 20⟩ ∧
    checkFurnitureOnlyCollision fullSpanDetector ⟨0, 0, 0⟩ ⟨1, 1, 1⟩ = false ∧
    checkFurnitureOnlyCollision fullSpanDetector ⟨9 / 20, 0, 9 / 20⟩ ⟨1, 1, 1⟩ = false :=
  ring_search_fullspan_returns_fallback ⟨355 / 113, fun _ => -(3 / 5), fun _ => 4 / 5⟩
    (fun a => by norm_num [abs_le]) (fun a => by norm_num [abs_le])
